import Mathlib

/-!
Shallow embedding of the AStockDataSync incremental-synchronization and
streaming-aggregation core (`src/data/manager_baostock.py` and
`src/data/manager_akshare.py`), together with proofs of its specified
properties.

Modelling conventions:

* Calendar dates and datetimes are day numbers (proleptic Gregorian day
  counts, `daysFromCivil`).  ISO `YYYY-MM-DD` strings compare
  lexicographically exactly as their day numbers compare, and
  `strptime`/`strftime` is a bijection between the two, so every string
  date comparison in the source is a day-number comparison here.
* Intraday timestamps fed to the `TimeframeAggregator` are minutes of the
  day (`_bar_start` reads only `hour`/`minute` and zeroes seconds and
  microseconds).
* Prices and volumes (Python floats) are modelled as rationals; every
  property proved below involves only `max`/`min`/addition on exactly
  representable values.
* Effectful code (Mongo writes, vendor calls, tqdm logs) is modelled by
  explicit effect traces (`Effect`), and fallible vendor/storage calls by
  boolean/function parameters recording their outcomes.
-/

namespace AStock

/-- Day number of a proleptic-Gregorian civil date (days since 1970-01-01,
the standard `days_from_civil` algorithm; `/` and `%` on `Int` are
Euclidean, which agrees with floor division for the positive divisors used
here).  This models `datetime` values and `YYYY-MM-DD` strings. -/
def daysFromCivil (y m d : Int) : Int :=
  let y1 := if m ≤ 2 then y - 1 else y
  let era := y1 / 400
  let yoe := y1 - era * 400
  let mp := (m + 9) % 12
  let doy := (153 * mp + 2) / 5 + d - 1
  let doe := yoe * 365 + yoe / 4 - yoe / 100 + doy
  era * 146097 + doe - 719468

/-- State of a `DailyRateLimiter`: the remembered calendar date
(`self.current_date`) and the count consumed on that date (`self.count`). -/
structure LimiterState where
  current_date : Int
  count : Int
  deriving DecidableEq

/-- Outcome of one `DailyRateLimiter.consume` call: whether the
`RuntimeError` quota signal was raised, the in-memory state afterwards, and
what `_persist` wrote to the cache file (`none` when nothing was written). -/
structure ConsumeOut where
  raised : Bool
  st : LimiterState
  persisted : Option (Int × Int)
  deriving DecidableEq

/-- `DailyRateLimiter.consume` (manager_baostock.py lines 81-94): a
non-positive cost or limit returns immediately; otherwise the counter is
reset when the wall-clock date rolled over, the quota is checked, and on
success the incremented `(date, count)` pair is persisted. -/
def consume (limit : Int) (st : LimiterState) (today : Int) (cost : Int) : ConsumeOut :=
  if cost ≤ 0 ∨ limit ≤ 0 then ⟨false, st, none⟩
  else
    let st1 : LimiterState := if today ≠ st.current_date then ⟨today, 0⟩ else st
    if st1.count + cost > limit then ⟨true, st1, none⟩
    else
      let st2 : LimiterState := ⟨st1.current_date, st1.count + cost⟩
      ⟨false, st2, some (st2.current_date, st2.count)⟩

/-- The limit coercion in `DailyRateLimiter.__init__`:
`self.limit = max(0, int(limit or DEFAULT_DAILY_CALL_LIMIT))`.  A configured
limit of `0` is falsy in Python and is replaced by the default `150000`; a
negative configured limit survives the `or` and is clamped to `0`. -/
def limiter_init_limit (limit : Int) : Int :=
  max 0 (if limit = 0 then 150000 else limit)

/-- Python truthiness of an optional integer (`None` and `0` are falsy). -/
def pyTruthy : Option Int → Bool
  | none => false
  | some n => n != 0

/-- `BaostockManager._resolve_start_date` (lines 765-791) over day numbers;
`DAYS_PER_YEAR = 365`.  The `last_date.getD 0` is only reached under the
`last_date.isSome` guard, mirroring the Python `if last_date and ...`
branch. -/
def resolve_start_date (last_date : Option Int) (full_update : Bool)
    (lookback_years : Option Int) (end_dt : Int) (min_start_date : Int)
    (resume_from_existing : Bool) (lookback_days : Option Int) : Option Int :=
  let candidate : Int :=
    if last_date.isSome && (resume_from_existing || !full_update) then
      last_date.getD 0 + 1
    else if full_update then min_start_date
    else if pyTruthy lookback_years then
      max min_start_date (end_dt - (lookback_years.getD 0) * 365)
    else if pyTruthy lookback_days then
      max min_start_date (end_dt - lookback_days.getD 0)
    else min_start_date
  if candidate > end_dt then none else some candidate

/-- One normalized K-line row as consumed by `_bulk_upsert_kline` and the
watermark logic: the upsert-key fields `code`, `date` and the optional
intraday `time`.  The remaining OHLCV columns produced by `_normalize_row`
flow through the sync pipeline untouched (the per-cell `float` coercion
only changes the runtime type of a cell), so they are not carried here. -/
structure Row where
  code : String
  date : Int
  time : Option String
  deriving DecidableEq

/-- Python truthiness of the optional `time` field of a row (an absent key
and an empty string are both falsy in `if "time" in data and data["time"]`). -/
def truthyTime : Option String → Bool
  | none => false
  | some t => t != ""

/-- The upsert filter document `_bulk_upsert_kline` builds for one row:
`{code, date}`, plus `time` when the row carries a truthy time. -/
def upsert_key (r : Row) : String × Int × Option String :=
  (r.code, r.date, if truthyTime r.time then r.time else none)

/-- `_bulk_upsert_kline` (lines 807-834): one `UpdateOne` upsert per row;
when the operation list is non-empty the bulk write is issued and the
function returns `data_list[-1]["date"]`, and a `BulkWriteError`
(`writeOk = false`) or an empty row list yields `None`. -/
def bulk_upsert_kline (writeOk : Bool) (data_list : List Row) : Option Int :=
  match data_list.getLast? with
  | none => none
  | some last => if writeOk then some last.date else none

/-- `data_list.sort(key=lambda x: x["date"])` (line 382): Python's `sort`
is a stable sort by the `date` key, and a stable sort of a list is
extensionally unique, so it is embedded as stable insertion sort
(`List.insertionSort`, whose ordered insert places a new row in front of
the first resident row whose date is not smaller, preserving the relative
order of rows with equal dates). -/
def sort_by_date (l : List Row) : List Row :=
  List.insertionSort (fun a b => a.date ≤ b.date) l

/-- A raw Baostock result set as seen by one attempt of
`query_history_k_data_plus`: error code, reported field list, and the data
rows (already in row-normalized form, see `Row`). -/
structure VendorResp where
  error_code : String
  fields : List String
  rows : List Row

/-- The fixed per-frequency expected field schema hard-coded in
`query_history_k_data_plus` (lines 296-351); `none` for an unsupported
frequency, for which the function raises `ValueError` before any fetch. -/
def expected_fields (freq : String) : Option (List String) :=
  if freq = "d" then
    some ["date", "code", "open", "high", "low", "close", "preclose", "volume",
      "amount", "adjustflag", "turn", "tradestatus", "pctChg", "peTTM", "psTTM",
      "pcfNcfTTM", "pbMRQ", "isST"]
  else if freq = "5" then
    some ["date", "time", "code", "open", "high", "low", "close", "volume",
      "amount", "adjustflag"]
  else if freq = "w" ∨ freq = "m" then
    some ["date", "code", "open", "high", "low", "close", "volume", "amount",
      "adjustflag", "turn", "pctChg"]
  else none

/-- The retry loop of `query_history_k_data_plus` (lines 353-392).
`respAt n` is the vendor's response to the `n`-th call.  A non-zero error
code retries; a field-set mismatch raises `ValueError`, which the enclosing
`except Exception` handler catches, so it also merely consumes an attempt
and retries; a clean response returns its rows sorted by date.  The result
carries the rows together with the number of vendor calls made; an
exhausted loop returns the empty list (line 392). -/
def query_loop (exp : List String) (respAt : Nat → VendorResp) :
    Nat → Nat → List Row × Nat
  | 0, attempt => ([], attempt)
  | fuel + 1, attempt =>
    let rs := respAt attempt
    if rs.error_code ≠ "0" then query_loop exp respAt fuel (attempt + 1)
    else if rs.fields ≠ exp then query_loop exp respAt fuel (attempt + 1)
    else (sort_by_date rs.rows, attempt + 1)

/-- `query_history_k_data_plus` (lines 289-392): resolve the frequency's
schema — an unsupported frequency raises `ValueError` to the caller — then
run the retry loop with `RETRY_LIMIT = 3` attempts. -/
def query_history (freq : String) (respAt : Nat → VendorResp) :
    Except String (List Row × Nat) :=
  match expected_fields freq with
  | none => Except.error "Unsupported frequency. Choose from d/w/m/5."
  | some exp => Except.ok (query_loop exp respAt 3 0)

/-- One projected `stock_basic` document as read by `sync_k_data`: the code
plus the per-frequency watermark fields (`wm field`, e.g.
`wm "last_daily_date"`). -/
structure StockDoc where
  code : String
  wm : String → Option Int

/-- Per-frequency settings from `collection_meta`: the watermark field
name, the minimum start date, the default lookback in years, and the
minute-frequency lookback in days. -/
structure FreqMeta where
  field : String
  min_start : Int
  default_years : Option Int
  lookback_days : Option Int

/-- Observable effects of a `sync_k_data` run: placeholder `stock_basic`
upserts performed while composing the target list, dry-run log lines,
invocations of `query_history_k_data_plus` (each of which internally
consumes call budget per vendor attempt), bar bulk writes with their upsert
keys, watermark field updates, and backend pushes. -/
inductive Effect where
  | basicPlaceholderUpsert (code : String)
  | dryRunLog (code freq : String) (startD endD : Int)
  | sourceQuery (code : String) (startD endD : Int) (freq : String)
  | barBulkWrite (freq : String) (keys : List (String × Int × Option String))
  | watermarkUpdate (code field : String) (date : Int)
  | pushKline (freq : String) (nRows : Nat)
  deriving DecidableEq

/-- `_compose_target_stock_list` (lines 729-743): return the `stock_basic`
documents plus, for every configured index code not already present, a
placeholder document that is both upserted into `stock_basic` (an effect)
and appended to the target list.  The membership check uses the set of
codes built before the loop, so duplicate index codes are processed
twice, exactly as in the source. -/
def compose_target_stock_list (basic : List StockDoc) (index_codes : List String) :
    List StockDoc × List Effect :=
  let existing := basic.map (·.code)
  let extra := index_codes.filter (fun c => !existing.contains c)
  (basic ++ extra.map (fun c => ⟨c, fun _ => none⟩),
    extra.map Effect.basicPlaceholderUpsert)

/-- The per-symbol body of `sync_k_data`'s frequency loop (lines 436-479).
`latestInCol` models `_latest_date_in_collection` (the fallback max-date
scan), `fetch code start endD` models the row list returned by
`query_history_k_data_plus` for this frequency, and `writeOk code` tells
whether the Mongo bulk write succeeds (`false` models `BulkWriteError`). -/
def sync_symbol (meta : FreqMeta) (freq : String) (end_dt : Int)
    (latestInCol : String → Option Int)
    (fetch : String → Int → Int → List Row)
    (writeOk : String → Bool)
    (full_update : Bool) (lookback_years : Option Int)
    (dry_run resume : Bool) (hasBackend : Bool)
    (stock : StockDoc) : List Effect :=
  let last_date :=
    match stock.wm meta.field with
    | some d => some d
    | none => latestInCol stock.code
  let freq_lookback_years :=
    if lookback_years.isSome && freq != "5" then lookback_years else meta.default_years
  match resolve_start_date last_date full_update freq_lookback_years end_dt
      meta.min_start resume meta.lookback_days with
  | none => []
  | some startD =>
    if startD > end_dt then []
    else if dry_run then [Effect.dryRunLog stock.code freq startD end_dt]
    else
      let data_list := fetch stock.code startD end_dt
      if data_list.isEmpty then [Effect.sourceQuery stock.code startD end_dt freq]
      else
        match bulk_upsert_kline (writeOk stock.code) data_list with
        | some newLast =>
          [Effect.sourceQuery stock.code startD end_dt freq,
            Effect.barBulkWrite freq (data_list.map upsert_key),
            Effect.watermarkUpdate stock.code meta.field newLast] ++
          (if hasBackend then [Effect.pushKline freq data_list.length] else [])
        | none =>
          [Effect.sourceQuery stock.code startD end_dt freq,
            Effect.barBulkWrite freq (data_list.map upsert_key)]

/-- The frequency loop of `sync_k_data`: for each requested frequency, look
up `collection_meta` — an unknown frequency makes `_get_collection_meta`
raise `ValueError`, aborting the rest of the run — then run the per-symbol
body over the whole target list. -/
def sync_freqs (metas : String → Option FreqMeta) (end_dt : Int)
    (latestInCol : String → Option Int)
    (fetch : String → Int → Int → String → List Row)
    (writeOk : String → Bool)
    (full_update : Bool) (lookback_years : Option Int)
    (dry_run resume : Bool) (hasBackend : Bool)
    (stocks : List StockDoc) : List String → List Effect
  | [] => []
  | f :: rest =>
    match metas f with
    | none => []
    | some meta =>
      (stocks.map (sync_symbol meta f end_dt latestInCol
        (fun c s e => fetch c s e f) writeOk full_update lookback_years
        dry_run resume hasBackend)).flatten ++
      sync_freqs metas end_dt latestInCol fetch writeOk full_update
        lookback_years dry_run resume hasBackend stocks rest

/-- `sync_k_data` (lines 399-479): compose the target stock list (with its
placeholder upserts), bail out if it is empty, and otherwise run the
frequency loop.  The result is the trace of observable effects. -/
def sync_k_data (metas : String → Option FreqMeta) (freq_list : List String)
    (basic : List StockDoc) (index_codes : List String) (end_dt : Int)
    (latestInCol : String → Option Int)
    (fetch : String → Int → Int → String → List Row)
    (writeOk : String → Bool)
    (full_update : Bool) (lookback_years : Option Int)
    (dry_run resume : Bool) (hasBackend : Bool) : List Effect :=
  let composed := compose_target_stock_list basic index_codes
  if composed.1.isEmpty then composed.2
  else
    composed.2 ++ sync_freqs metas end_dt latestInCol fetch writeOk
      full_update lookback_years dry_run resume hasBackend composed.1 freq_list

/-- The open bar under construction in a `TimeframeAggregator`:
`current_bar_start` (as minute of day), open/high/low/close and accumulated
volume. -/
structure OpenBar where
  barStart : Nat
  openP : ℚ
  highP : ℚ
  lowP : ℚ
  closeP : ℚ
  volume : ℚ
  deriving DecidableEq

/-- State of one `TimeframeAggregator`, together with the bars it has
persisted through `_save_current_bar` in order of persistence;
`current = none` models `current_bar_start is None`. -/
structure AggState where
  current : Option OpenBar
  persisted : List OpenBar
  deriving DecidableEq

/-- `TimeframeAggregator._bar_start` for an `Nm` timeframe: floor the
minute of day to a multiple of `tf` minutes. -/
def bar_start (tf : Nat) (t : Nat) : Nat := t / tf * tf

/-- `TimeframeAggregator._open_bar`: a fresh bar with O=H=L=C=price and
volume clamped to `max(vol_increment, 0)`. -/
def open_bar (bs : Nat) (price volInc : ℚ) : OpenBar :=
  ⟨bs, price, price, price, price, max volInc 0⟩

/-- `TimeframeAggregator.update_bar` (manager_akshare.py lines 94-106):
open on empty state; merge (H=max, L=min, C=price, volume += clamped
increment) when the bucket matches; otherwise persist the current bar and
open a fresh one at the new bucket. -/
def update_bar (tf : Nat) (s : AggState) (t : Nat) (price volInc : ℚ) : AggState :=
  let bs := bar_start tf t
  match s.current with
  | none => { s with current := some (open_bar bs price volInc) }
  | some b =>
    if bs = b.barStart then
      { s with current := some { b with
          highP := max b.highP price
          lowP := min b.lowP price
          closeP := price
          volume := b.volume + max volInc 0 } }
    else
      { current := some (open_bar bs price volInc)
        persisted := s.persisted ++ [b] }

/-- `TimeframeAggregator.flush` (lines 108-115): persist whatever bar is
open and reset the state to empty. -/
def flush (s : AggState) : AggState :=
  match s.current with
  | none => { s with current := none }
  | some b => { current := none, persisted := s.persisted ++ [b] }

/-- Feeding a sequence of `(timestamp, price, volume_increment)` updates
through `update_bar`. -/
def update_run (tf : Nat) (s : AggState) (us : List (Nat × ℚ × ℚ)) : AggState :=
  us.foldl (fun st u => update_bar tf st u.1 u.2.1 u.2.2) s

/-- `BaostockManager._next_quarter` (lines 848-851). -/
def next_quarter (y q : Nat) : Nat × Nat :=
  if q = 4 then (y + 1, 1) else (y, q + 1)

/-- `BaostockManager._iter_finance_quarters` (lines 853-863), with a fuel
bound on the `while` loop; any fuel at least the number of generated
quarters yields the loop's full output (valid quarters `1..4` always
terminate, one step per quarter). -/
def iter_finance_quarters (ey eq : Nat) : Nat → Nat × Nat → List (Nat × Nat)
  | 0, _ => []
  | fuel + 1, (y, q) =>
    if y < ey ∨ (y = ey ∧ q ≤ eq) then
      (y, q) :: iter_finance_quarters ey eq fuel (next_quarter y q)
    else []

/-- The four report types of `FINANCE_REPORTERS` (profit, balance sheet,
cash flow, Dupont decomposition). -/
def finance_report_types : List String := ["profit", "balance", "cash_flow", "dupont"]

/-- Whether the quarter body of `sync_finance_data` sets `data_written` for
quarter `(y, q)`: some report type returned rows (`hasRows`) and its bulk
write did not raise `BulkWriteError` (`writeOk`). -/
def finance_data_written (hasRows writeOk : String → Nat → Nat → Bool) (y q : Nat) : Bool :=
  finance_report_types.any fun rt => hasRows rt y q && writeOk rt y q

/-- The `latest_marker` computed by the quarter loop of `sync_finance_data`
(lines 606-642): it starts as `None` and is overwritten by every quarter in
iteration order whose `data_written` flag is true; the symbol's
`last_finance_quarter` field is then set to it when it is not `None`
(lines 644-648). -/
def finance_latest_marker (quarters : List (Nat × Nat)) (dw : Nat → Nat → Bool) :
    Option (Nat × Nat) :=
  quarters.foldl (fun acc yq => if dw yq.1 yq.2 then some yq else acc) none

/-- The start quarter a later resume/incremental `sync_finance_data` run
derives from a stored marker (lines 583-591): `next_quarter(marker)` when a
marker is present — clamped back to `(min_year, 1)` when it lies before the
lookback window — and `(min_year, 1)` otherwise. -/
def finance_resume_start (marker : Option (Nat × Nat)) (min_year : Nat) : Nat × Nat :=
  match marker with
  | none => (min_year, 1)
  | some m =>
    let s := next_quarter m.1 m.2
    if s.1 < min_year then (min_year, 1) else s

/-- Helper for stating the closed form of `finance_latest_marker`:
`lastSome o acc` keeps `acc` unless `o` provides a value. -/
def lastSome (o acc : Option α) : Option α :=
  match o with
  | some x => some x
  | none => acc

/-- C2: for every limiter state `(date, count)` and every `cost > 0` with
`limit > 0`, `consume` raises the quota signal exactly when
`count + cost > limit` — with the count first reset to `0` when the stored
date differs from today — and on that failure the consumed count is not
incremented and nothing is persisted; on success it increments the count by
`cost` and persists the `(date, count)` pair. -/
theorem consume_quota_check (limit : Int) (st : LimiterState) (today cost : Int)
    (hc : 0 < cost) (hl : 0 < limit) :
    ((consume limit st today cost).raised = true ↔
      limit < (if today ≠ st.current_date then (0 : Int) else st.count) + cost) ∧
    ((consume limit st today cost).raised = true →
      (consume limit st today cost).st =
        (if today ≠ st.current_date then ⟨today, 0⟩ else st) ∧
      (consume limit st today cost).persisted = none) ∧
    ((consume limit st today cost).raised = false →
      (consume limit st today cost).st =
        ⟨(if today ≠ st.current_date then today else st.current_date),
         (if today ≠ st.current_date then (0 : Int) else st.count) + cost⟩ ∧
      (consume limit st today cost).persisted =
        some ((if today ≠ st.current_date then today else st.current_date),
          (if today ≠ st.current_date then (0 : Int) else st.count) + cost)) := by
  have hguard : ¬(cost ≤ 0 ∨ limit ≤ 0) := by omega
  by_cases hd : today ≠ st.current_date
  · by_cases hq : limit < cost
    · simp [consume, hguard, hd, hq]
    · simp [consume, hguard, hd, hq]
  · by_cases hq : limit < st.count + cost
    · simp [consume, hguard, hd, hq]
    · simp [consume, hguard, hd, hq]

/-- Witness for C2, exercising the spec scenario: with `limit = 2` on one
day, two `consume(1)` calls succeed, a third raises with the count left at
2 and nothing persisted (established by applying `consume_quota_check`),
and after a date rollover `consume(1)` succeeds again leaving the counter
at 1. -/
theorem consume_quota_check_scenario :
    (0 : Int) < 1 ∧ (0 : Int) < 2 ∧
    (((consume 2 ⟨19889, 2⟩ 19889 1).raised = true ↔
        2 < (if (19889 : Int) ≠ (19889 : Int) then (0 : Int) else 2) + 1) ∧
      ((consume 2 ⟨19889, 2⟩ 19889 1).raised = true →
        (consume 2 ⟨19889, 2⟩ 19889 1).st =
          (if (19889 : Int) ≠ (19889 : Int) then ⟨19889, 0⟩ else ⟨19889, 2⟩) ∧
        (consume 2 ⟨19889, 2⟩ 19889 1).persisted = none) ∧
      ((consume 2 ⟨19889, 2⟩ 19889 1).raised = false →
        (consume 2 ⟨19889, 2⟩ 19889 1).st =
          ⟨(if (19889 : Int) ≠ (19889 : Int) then 19889 else 19889),
           (if (19889 : Int) ≠ (19889 : Int) then (0 : Int) else 2) + 1⟩ ∧
        (consume 2 ⟨19889, 2⟩ 19889 1).persisted =
          some ((if (19889 : Int) ≠ (19889 : Int) then 19889 else 19889),
            (if (19889 : Int) ≠ (19889 : Int) then (0 : Int) else 2) + 1))) ∧
    consume 2 ⟨19889, 0⟩ 19889 1 = ⟨false, ⟨19889, 1⟩, some (19889, 1)⟩ ∧
    consume 2 ⟨19889, 1⟩ 19889 1 = ⟨false, ⟨19889, 2⟩, some (19889, 2)⟩ ∧
    (consume 2 ⟨19889, 2⟩ 19889 1).raised = true ∧
    consume 2 ⟨19889, 2⟩ 19890 1 = ⟨false, ⟨19890, 1⟩, some (19890, 1)⟩ :=
  ⟨by decide, by decide,
    consume_quota_check 2 ⟨19889, 2⟩ 19889 1 (by decide) (by decide),
    by decide, by decide, by decide, by decide⟩

/-- C10: `consume` with a non-positive cost, or on a limiter whose stored
limit is non-positive, returns immediately without raising, without
touching the counter and without persisting anything; the constructor
coerces a configured limit of `0` to the default `150000` and clamps a
negative configured limit to `0`, and a stored limit of `0` disables quota
enforcement entirely (every `consume` is a no-op). -/
theorem consume_guard_and_init_limit :
    (∀ (limit : Int) (st : LimiterState) (today cost : Int),
      cost ≤ 0 ∨ limit ≤ 0 → consume limit st today cost = ⟨false, st, none⟩) ∧
    limiter_init_limit 0 = 150000 ∧
    (∀ limit : Int, limit < 0 → limiter_init_limit limit = 0) ∧
    (∀ (st : LimiterState) (today cost : Int),
      consume 0 st today cost = ⟨false, st, none⟩) := by
  refine ⟨fun limit st today cost h => ?_, by decide, fun limit h => ?_, fun st today cost => ?_⟩
  · simp [consume, h]
  · simp only [limiter_init_limit]
    rw [if_neg (by omega)]
    omega
  · simp [consume]

/-- Witness for C10: a negative cost on a fully charged limiter is a
silent no-op, a zero configured limit becomes the default 150000, a
negative configured limit becomes 0, and with a stored limit of 0 even a
huge cost is a silent no-op. -/
theorem consume_guard_and_init_limit_witness :
    ((-1 : Int) ≤ 0 ∨ (150000 : Int) ≤ 0) ∧
    consume 150000 ⟨19889, 150000⟩ 19889 (-1) = ⟨false, ⟨19889, 150000⟩, none⟩ ∧
    limiter_init_limit 0 = 150000 ∧
    ((-7 : Int) < 0) ∧ limiter_init_limit (-7) = 0 ∧
    consume 0 ⟨19889, 0⟩ 19889 999999 = ⟨false, ⟨19889, 0⟩, none⟩ :=
  ⟨Or.inl (by decide),
    consume_guard_and_init_limit.1 150000 ⟨19889, 150000⟩ 19889 (-1) (Or.inl (by decide)),
    consume_guard_and_init_limit.2.1,
    by decide,
    consume_guard_and_init_limit.2.2.1 (-7) (by decide),
    consume_guard_and_init_limit.2.2.2 ⟨19889, 0⟩ 19889 999999⟩

/-- C4 counterexample: `resolveStartDate` with no watermark, incremental
mode, a 1-year lookback, `minStart = 2014-01-01` and `now = 2024-06-15`
returns 2024-06-15 minus 365 days, which is 2023-06-16 — the lookback
window spans 2024's leap day — and not the 2023-06-15 the claim states. -/
theorem resolve_start_date_one_year_lookback_cex :
    resolve_start_date none false (some 1) (daysFromCivil 2024 6 15)
      (daysFromCivil 2014 1 1) false none = some (daysFromCivil 2023 6 16) ∧
    daysFromCivil 2023 6 16 ≠ daysFromCivil 2023 6 15 ∧
    daysFromCivil 2024 6 15 - daysFromCivil 2023 6 16 = 365 ∧
    daysFromCivil 2024 6 15 - daysFromCivil 2023 6 15 = 366 := by
  refine ⟨?_, by decide, by decide, by decide⟩
  decide

/-- C4 (amended): with no watermark, incremental mode and a positive
lookback of `y` years, the resolved start is `now` minus `365 * y` days
(the source counts a year as a fixed `DAYS_PER_YEAR = 365` days), clamped
to be no earlier than `minStartDate`; for the spec scenario this yields
2023-06-16, one day later than the claimed 2023-06-15 because the window
crosses the 2024 leap day. -/
theorem resolve_start_date_no_watermark_lookback (end_dt min_start y : Int)
    (lookback_days : Option Int) (hy : 0 < y) (hms : min_start ≤ end_dt) :
    resolve_start_date none false (some y) end_dt min_start false lookback_days =
      some (max min_start (end_dt - y * 365)) := by
  have hy1 : (y != 0) = true := by simpa using by omega
  simp only [resolve_start_date, Option.isSome_none, Bool.false_and, Bool.false_eq_true,
    if_false, pyTruthy, hy1, if_true, Option.getD_some]
  rw [if_neg]
  push_neg
  have : end_dt - y * 365 ≤ end_dt := by nlinarith
  simp only [max_le_iff]
  exact ⟨hms, this⟩

/-- Witness for the amended C4 at the spec scenario's inputs: the start is
`max(2014-01-01, 2024-06-15 - 365)`, which evaluates to 2023-06-16. -/
theorem resolve_start_date_no_watermark_lookback_witness :
    (0 : Int) < 1 ∧ daysFromCivil 2014 1 1 ≤ daysFromCivil 2024 6 15 ∧
    resolve_start_date none false (some 1) (daysFromCivil 2024 6 15)
        (daysFromCivil 2014 1 1) false none =
      some (max (daysFromCivil 2014 1 1) (daysFromCivil 2024 6 15 - 1 * 365)) ∧
    max (daysFromCivil 2014 1 1) (daysFromCivil 2024 6 15 - 1 * 365) =
      daysFromCivil 2023 6 16 :=
  ⟨by decide, by decide,
    resolve_start_date_no_watermark_lookback (daysFromCivil 2024 6 15)
      (daysFromCivil 2014 1 1) 1 none (by decide) (by decide),
    by decide⟩

/-- C5 counterexample: with a 5-minute bar open at 09:35 (minute 575), an
out-of-order quote for 09:31 (minute 571, bucket 09:30) is not dropped:
`update_bar` persists the open 09:35 bar and opens a fresh bar at the
earlier bucket 09:30, so the state changes and a subsequent flush persists
a bar for the earlier bucket. -/
theorem update_bar_late_quote_cex :
    update_bar 5 ⟨some ⟨575, 10, 10, 10, 10, 0⟩, []⟩ 571 11 5 =
      ⟨some ⟨570, 11, 11, 11, 11, 5⟩, [⟨575, 10, 10, 10, 10, 0⟩]⟩ ∧
    update_bar 5 ⟨some ⟨575, 10, 10, 10, 10, 0⟩, []⟩ 571 11 5 ≠
      ⟨some ⟨575, 10, 10, 10, 10, 0⟩, []⟩ ∧
    (flush (update_bar 5 ⟨some ⟨575, 10, 10, 10, 10, 0⟩, []⟩ 571 11 5)).persisted =
      [⟨575, 10, 10, 10, 10, 0⟩, ⟨570, 11, 11, 11, 11, 5⟩] ∧
    bar_start 5 571 < (575 : Nat) := by
  refine ⟨by decide, by decide, by decide, by decide⟩

/-- C5 (amended): an update whose bucket start is strictly earlier than the
current open bar's start is treated like any boundary crossing rather than
being dropped: the open bar is persisted and a fresh bar is opened at the
earlier bucket with O=H=L=C equal to the quote's price and volume equal to
the clamped increment. -/
theorem update_bar_late_quote_crosses (tf : Nat) (s : AggState) (b : OpenBar)
    (t : Nat) (p v : ℚ) (hb : s.current = some b) (hlt : bar_start tf t < b.barStart) :
    update_bar tf s t p v =
      ⟨some (open_bar (bar_start tf t) p v), s.persisted ++ [b]⟩ := by
  simp only [update_bar, hb]
  rw [if_neg (by omega)]

/-- Witness for the amended C5: the 09:31 late quote against an open 09:35
bar persists the 09:35 bar and opens bucket 09:30. -/
theorem update_bar_late_quote_crosses_witness :
    (⟨some ⟨575, 10, 10, 10, 10, 0⟩, []⟩ : AggState).current =
      some ⟨575, 10, 10, 10, 10, 0⟩ ∧
    bar_start 5 571 < (575 : Nat) ∧
    update_bar 5 ⟨some ⟨575, 10, 10, 10, 10, 0⟩, []⟩ 571 11 5 =
      ⟨some (open_bar (bar_start 5 571) 11 5), [] ++ [⟨575, 10, 10, 10, 10, 0⟩]⟩ :=
  ⟨rfl, by decide,
    update_bar_late_quote_crosses 5 ⟨some ⟨575, 10, 10, 10, 10, 0⟩, []⟩
      ⟨575, 10, 10, 10, 10, 0⟩ 571 11 5 rfl (by decide)⟩

/-- C6: when a bar is open for bucket N and an update's timestamp falls in
a strictly later bucket, `update_bar` persists exactly one new bar — the
open bar with its final O/H/L/C/volume — and opens a fresh bar at the new
bucket with O=H=L=C equal to the new price and volume equal to the clamped
increment `max(vol_increment, 0)`. -/
theorem update_bar_boundary_crossing (tf : Nat) (s : AggState) (b : OpenBar)
    (t : Nat) (p v : ℚ) (hb : s.current = some b) (hlt : b.barStart < bar_start tf t) :
    update_bar tf s t p v =
      ⟨some ⟨bar_start tf t, p, p, p, p, max v 0⟩, s.persisted ++ [b]⟩ := by
  simp only [update_bar, hb]
  rw [if_neg (by omega)]
  rfl

/-- Witness for C6, exercising the spec's 5-minute scenario: after feeding
(09:31, price 10, vol 100) and (09:34, price 12, vol 50) the open bucket
09:30 bar is O=10 H=12 L=10 C=12 V=150; feeding (09:36, price 9, vol 30)
persists exactly that bar and opens bucket 09:35 with O=H=L=C=9, V=30. -/
theorem update_bar_boundary_crossing_scenario :
    (update_run 5 ⟨none, []⟩ [(571, 10, 100), (574, 12, 50)]).current =
      some ⟨570, 10, 12, 10, 12, 150⟩ ∧
    (570 : Nat) < bar_start 5 576 ∧
    update_bar 5 (update_run 5 ⟨none, []⟩ [(571, 10, 100), (574, 12, 50)]) 576 9 30 =
      ⟨some ⟨bar_start 5 576, 9, 9, 9, 9, max 30 0⟩,
        (update_run 5 ⟨none, []⟩ [(571, 10, 100), (574, 12, 50)]).persisted ++
          [⟨570, 10, 12, 10, 12, 150⟩]⟩ ∧
    update_bar 5 (update_run 5 ⟨none, []⟩ [(571, 10, 100), (574, 12, 50)]) 576 9 30 =
      ⟨some ⟨575, 9, 9, 9, 9, 30⟩, [⟨570, 10, 12, 10, 12, 150⟩]⟩ := by
  have h1 : (update_run 5 ⟨none, []⟩ [(571, 10, 100), (574, 12, 50)]).current =
      some ⟨570, 10, 12, 10, 12, 150⟩ := by
    simp [update_run, update_bar, open_bar, bar_start]
    norm_num
  have h3 := update_bar_boundary_crossing 5
    (update_run 5 ⟨none, []⟩ [(571, 10, 100), (574, 12, 50)])
    ⟨570, 10, 12, 10, 12, 150⟩ 576 9 30 h1 (by decide)
  refine ⟨h1, by decide, h3, ?_⟩
  rw [h3]
  have h2 : (update_run 5 ⟨none, []⟩ [(571, 10, 100), (574, 12, 50)]).persisted = [] := by
    simp [update_run, update_bar, open_bar, bar_start]
  rw [h2]
  norm_num [bar_start]

/-- C7: feeding any sequence of updates whose timestamps all fall in the
open bar's bucket keeps a bar open for that same bucket, never decreases
its high, never increases its low, keeps its volume monotonically
non-decreasing (each step adds `max(vol_increment, 0)`, so negative
increments are clamped to zero), and persists nothing. -/
theorem update_run_same_bucket_monotone (tf : Nat) (s : AggState) (b : OpenBar)
    (us : List (Nat × ℚ × ℚ)) (hb : s.current = some b)
    (hin : ∀ u ∈ us, bar_start tf u.1 = b.barStart) :
    ∃ c : OpenBar, (update_run tf s us).current = some c ∧
      c.barStart = b.barStart ∧ b.highP ≤ c.highP ∧ c.lowP ≤ b.lowP ∧
      b.volume ≤ c.volume ∧ (update_run tf s us).persisted = s.persisted := by
  induction us generalizing s b with
  | nil => exact ⟨b, hb, rfl, le_refl _, le_refl _, le_refl _, rfl⟩
  | cons u rest ih =>
    have hu : bar_start tf u.1 = b.barStart := hin u (List.mem_cons_self u rest)
    have hstep : update_bar tf s u.1 u.2.1 u.2.2 =
        { s with current := some { b with
            highP := max b.highP u.2.1
            lowP := min b.lowP u.2.1
            closeP := u.2.1
            volume := b.volume + max u.2.2 0 } } := by
      simp only [update_bar, hb]
      rw [if_pos hu]
    have hrun : update_run tf s (u :: rest) =
        update_run tf (update_bar tf s u.1 u.2.1 u.2.2) rest := rfl
    rw [hrun, hstep]
    obtain ⟨c, hc, hcs, hch, hcl, hcv, hcp⟩ :=
      ih { s with current := some { b with
            highP := max b.highP u.2.1
            lowP := min b.lowP u.2.1
            closeP := u.2.1
            volume := b.volume + max u.2.2 0 } }
        { b with
          highP := max b.highP u.2.1
          lowP := min b.lowP u.2.1
          closeP := u.2.1
          volume := b.volume + max u.2.2 0 } rfl
        (fun w hw => by
          simpa using hin w (List.mem_cons_of_mem u hw))
    refine ⟨c, hc, hcs, ?_, ?_, ?_, hcp⟩
    · exact le_trans (le_max_left _ _) hch
    · exact le_trans hcl (min_le_left _ _)
    · calc b.volume ≤ b.volume + max u.2.2 0 := by
            have : (0 : ℚ) ≤ max u.2.2 0 := le_max_right _ _
            linarith
        _ ≤ c.volume := hcv

/-- Witness for C7: starting from an open 09:30 bar (O=H=L=C=10, V=100),
two in-bucket updates — one of them with a negative volume increment —
leave a bar open for 09:30 with high 11 ≥ 10, low 8 ≤ 10 and volume
105 ≥ 100 (the −3 increment was clamped, not subtracted), persisting
nothing. -/
theorem update_run_same_bucket_monotone_witness :
    (⟨some ⟨570, 10, 10, 10, 10, 100⟩, []⟩ : AggState).current =
      some ⟨570, 10, 10, 10, 10, 100⟩ ∧
    (∀ u ∈ [((571 : Nat), (11 : ℚ), (5 : ℚ)), (573, 8, -3)],
      bar_start 5 u.1 = (570 : Nat)) ∧
    (∃ c : OpenBar,
      (update_run 5 ⟨some ⟨570, 10, 10, 10, 10, 100⟩, []⟩
          [(571, 11, 5), (573, 8, -3)]).current = some c ∧
      c.barStart = (570 : Nat) ∧ (10 : ℚ) ≤ c.highP ∧ c.lowP ≤ (10 : ℚ) ∧
      (100 : ℚ) ≤ c.volume ∧
      (update_run 5 ⟨some ⟨570, 10, 10, 10, 10, 100⟩, []⟩
          [(571, 11, 5), (573, 8, -3)]).persisted = []) ∧
    update_run 5 ⟨some ⟨570, 10, 10, 10, 10, 100⟩, []⟩ [(571, 11, 5), (573, 8, -3)] =
      ⟨some ⟨570, 10, 11, 8, 8, 105⟩, []⟩ :=
  ⟨rfl, by decide,
    update_run_same_bucket_monotone 5 ⟨some ⟨570, 10, 10, 10, 10, 100⟩, []⟩
      ⟨570, 10, 10, 10, 10, 100⟩ [(571, 11, 5), (573, 8, -3)] rfl (by decide),
    by
      simp [update_run, update_bar, open_bar, bar_start]
      norm_num⟩

/-- Helper: the output of `sort_by_date` is sorted by date. -/
theorem sort_by_date_sorted (l : List Row) :
    (sort_by_date l).Sorted (fun a b : Row => a.date ≤ b.date) := by
  haveI : IsTotal Row (fun a b : Row => a.date ≤ b.date) :=
    ⟨fun a b => le_total a.date b.date⟩
  haveI : IsTrans Row (fun a b : Row => a.date ≤ b.date) :=
    ⟨fun _ _ _ hab hbc => le_trans hab hbc⟩
  exact List.sorted_insertionSort _ l

/-- Helper: in a date-sorted row list, the last element has the maximum
date. -/
theorem sorted_getLast_max : ∀ {l : List Row} {x : Row},
    l.Sorted (fun a b : Row => a.date ≤ b.date) → l.getLast? = some x →
    ∀ r ∈ l, r.date ≤ x.date := by
  intro l
  induction l with
  | nil => intro x _ hx; cases hx
  | cons a t ih =>
    intro x hs hx r hr
    cases t with
    | nil =>
      simp only [List.getLast?_singleton, Option.some.injEq] at hx
      rcases List.mem_singleton.mp hr with rfl
      exact le_of_eq (congrArg Row.date hx)
    | cons b t2 =>
      rw [List.getLast?_cons_cons] at hx
      have hpair := List.sorted_cons.mp hs
      have hxmem : x ∈ b :: t2 := by
        obtain ⟨hne, hlast⟩ := List.mem_getLast?_eq_getLast (l := b :: t2) (x := x) hx
        exact hlast ▸ List.getLast_mem hne
      rcases List.mem_cons.mp hr with rfl | hr2
      · exact hpair.1 x hxmem
      · exact ih hpair.2 hx r hr2

/-- Helper: every row list produced by the retry loop of
`query_history_k_data_plus` is date-sorted. -/
theorem query_loop_sorted (exp : List String) (respAt : Nat → VendorResp) :
    ∀ (fuel attempt : Nat),
      (query_loop exp respAt fuel attempt).1.Sorted
        (fun a b : Row => a.date ≤ b.date) := by
  intro fuel
  induction fuel with
  | zero => intro attempt; simp [query_loop]
  | succ n ih =>
    intro attempt
    by_cases h1 : (respAt attempt).error_code ≠ "0"
    · simpa [query_loop, h1] using ih (attempt + 1)
    · by_cases h2 : (respAt attempt).fields ≠ exp
      · simpa [query_loop, h1, h2] using ih (attempt + 1)
      · simpa [query_loop, h1, h2] using sort_by_date_sorted (respAt attempt).rows

/-- Helper: a successful `query_history_k_data_plus` result is
date-sorted. -/
theorem query_history_ok_sorted (freq : String) (respAt : Nat → VendorResp)
    (rows : List Row) (calls : Nat)
    (h : query_history freq respAt = Except.ok (rows, calls)) :
    rows.Sorted (fun a b : Row => a.date ≤ b.date) := by
  unfold query_history at h
  cases hexp : expected_fields freq with
  | none => rw [hexp] at h; cases h
  | some exp =>
    rw [hexp] at h
    have : (query_loop exp respAt 3 0).1 = rows := by
      have := congrArg (fun x => match x with
        | Except.ok (p : List Row × Nat) => p.1
        | Except.error _ => []) h
      simpa using this
    rw [← this]
    exact query_loop_sorted exp respAt 3 0

/-- C3 counterexample: a vendor that on every attempt answers with error
code "0", a non-empty row list and a field list different from the fixed
daily schema does not make `query_history_k_data_plus` fail: the
`ValueError` raised on the mismatch is caught by the retry handler's
`except Exception`, the call is retried until `RETRY_LIMIT = 3` attempts
are exhausted, and the caller receives a successful empty result. -/
theorem query_history_schema_mismatch_cex :
    query_history "d" (fun _ => ⟨"0", ["wrong"], [⟨"sh.600000", 19889, none⟩]⟩) =
      Except.ok (([] : List Row), 3) ∧
    (["wrong"] ≠ (expected_fields "d").getD []) ∧
    ([(⟨"sh.600000", 19889, none⟩ : Row)] ≠ ([] : List Row)) := by
  exact ⟨rfl, by decide, by decide⟩

/-- C3 (amended): a field-set mismatch inside `query_history_k_data_plus`
is not propagated and not fatal: the raised `ValueError` is absorbed by the
retry loop, each mismatching response consumes one of the `RETRY_LIMIT = 3`
attempts, and when every attempt mismatches the function returns a
successful empty result to the caller, indistinguishable from a genuinely
empty range. -/
theorem query_history_schema_mismatch_absorbed (freq : String) (exp : List String)
    (respAt : Nat → VendorResp) (hexp : expected_fields freq = some exp)
    (hmis : ∀ n, n < 3 → (respAt n).error_code = "0" ∧ (respAt n).fields ≠ exp) :
    query_history freq respAt = Except.ok (([] : List Row), 3) := by
  obtain ⟨he0, hf0⟩ := hmis 0 (by omega)
  obtain ⟨he1, hf1⟩ := hmis 1 (by omega)
  obtain ⟨he2, hf2⟩ := hmis 2 (by omega)
  simp [query_history, hexp, query_loop, he0, hf0, he1, hf1, he2, hf2]

/-- Witness for the amended C3, applying it to a vendor that always reports
a clean error code with a wrong field list for the daily frequency. -/
theorem query_history_schema_mismatch_absorbed_witness :
    expected_fields "d" = some ((expected_fields "d").getD []) ∧
    (∀ n : Nat, n < 3 →
      ((fun _ : Nat => (⟨"0", ["wrong"], [⟨"sh.600000", 19889, none⟩]⟩ : VendorResp)) n).error_code = "0" ∧
      ((fun _ : Nat => (⟨"0", ["wrong"], [⟨"sh.600000", 19889, none⟩]⟩ : VendorResp)) n).fields ≠
        (expected_fields "d").getD []) ∧
    query_history "d" (fun _ => ⟨"0", ["wrong"], [⟨"sh.600000", 19889, none⟩]⟩) =
      Except.ok (([] : List Row), 3) :=
  ⟨by decide, fun n _ => ⟨rfl, by show ["wrong"] ≠ _; decide⟩,
    query_history_schema_mismatch_absorbed "d" ((expected_fields "d").getD [])
      (fun _ => ⟨"0", ["wrong"], [⟨"sh.600000", 19889, none⟩]⟩) (by decide)
      (fun n _ => ⟨rfl, by show ["wrong"] ≠ _; decide⟩)⟩

/-- Helper: the fold that computes `latest_marker` keeps the accumulator
unless a later data-bearing element overwrites it, so it equals the last
element of the filtered list when one exists. -/
theorem foldl_latest_eq_lastSome {a : Type} (P : a → Bool) :
    ∀ (l : List a) (acc : Option a),
      l.foldl (fun s x => if P x then some x else s) acc =
        lastSome ((l.filter P).getLast?) acc := by
  intro l
  induction l with
  | nil => intro acc; rfl
  | cons x t ih =>
    intro acc
    by_cases hx : P x
    · rw [List.foldl_cons, if_pos hx, ih (some x), List.filter_cons_of_pos hx]
      cases hfil : t.filter P with
      | nil => simp [lastSome, hfil]
      | cons y ys =>
        rw [List.getLast?_cons_cons]
        cases hg : (y :: ys).getLast? with
        | none => exact absurd (List.getLast?_eq_none_iff.mp hg) (by simp)
        | some z => simp [lastSome]
    · rw [List.foldl_cons, if_neg hx, ih acc, List.filter_cons_of_neg hx]

/-- C8 (amended): the `last_finance_quarter` marker computed by a
`sync_finance_data` run is exactly the last quarter of the range for which
at least one report type produced data; consequently the marker is only
ever a data-bearing quarter of the range — a data-less quarter never sets
it — but a data-less quarter that is followed in the same run by a later
data-bearing quarter is skipped past, not revisited. -/
theorem finance_latest_marker_closed_form :
    (∀ (quarters : List (Nat × Nat)) (dw : Nat → Nat → Bool),
      finance_latest_marker quarters dw =
        (quarters.filter (fun yq => dw yq.1 yq.2)).getLast?) ∧
    (∀ (quarters : List (Nat × Nat)) (dw : Nat → Nat → Bool) (m : Nat × Nat),
      finance_latest_marker quarters dw = some m →
      m ∈ quarters ∧ dw m.1 m.2 = true) := by
  have hclosed : ∀ (quarters : List (Nat × Nat)) (dw : Nat → Nat → Bool),
      finance_latest_marker quarters dw =
        (quarters.filter (fun yq => dw yq.1 yq.2)).getLast? := by
    intro quarters dw
    rw [finance_latest_marker, foldl_latest_eq_lastSome]
    cases (quarters.filter (fun yq => dw yq.1 yq.2)).getLast? <;> rfl
  refine ⟨hclosed, fun quarters dw m hm => ?_⟩
  rw [hclosed] at hm
  have hmem : m ∈ quarters.filter (fun yq => dw yq.1 yq.2) := by
    obtain ⟨hne, hlast⟩ := List.mem_getLast?_eq_getLast
      (l := quarters.filter (fun yq => dw yq.1 yq.2)) (x := m) hm
    exact hlast ▸ List.getLast_mem hne
  have := List.mem_filter.mp hmem
  exact ⟨this.1, this.2⟩

/-- Witness for the amended C8: over quarters 2023Q1..2023Q3 where only Q2
has no data, the marker is the last data quarter 2023Q3 (both via the
closed form and via the data-bearing consequence). -/
theorem finance_latest_marker_closed_form_witness :
    finance_latest_marker [(2023, 1), (2023, 2), (2023, 3)]
        (finance_data_written (fun _ _ q => q != 2) (fun _ _ _ => true)) =
      ([(2023, 1), (2023, 2), (2023, 3)].filter
        (fun yq => finance_data_written (fun _ _ q => q != 2) (fun _ _ _ => true) yq.1 yq.2)).getLast? ∧
    finance_latest_marker [(2023, 1), (2023, 2), (2023, 3)]
        (finance_data_written (fun _ _ q => q != 2) (fun _ _ _ => true)) =
      some (2023, 3) ∧
    ((2023, 3) ∈ [((2023 : Nat), (1 : Nat)), (2023, 2), (2023, 3)] ∧
      finance_data_written (fun _ _ q => q != 2) (fun _ _ _ => true) 2023 3 = true) :=
  ⟨finance_latest_marker_closed_form.1 [(2023, 1), (2023, 2), (2023, 3)]
      (finance_data_written (fun _ _ q => q != 2) (fun _ _ _ => true)),
    by decide,
    finance_latest_marker_closed_form.2 [(2023, 1), (2023, 2), (2023, 3)]
      (finance_data_written (fun _ _ q => q != 2) (fun _ _ _ => true)) (2023, 3)
      (by decide)⟩

/-- C8 counterexample: over the quarter range 2023Q1..2023Q3 produced by
`_iter_finance_quarters`, with data in Q1 and Q3 but none in Q2 for every
report type, the run's marker advances to 2023Q3 — past the data-less
2023Q2 — and the next resume run therefore starts at 2023Q4, so 2023Q2 is
not included in the next run's range, contradicting the claim that a
zero-data quarter is never advanced past. -/
theorem finance_marker_gap_skipped_cex :
    iter_finance_quarters 2023 3 12 (2023, 1) = [(2023, 1), (2023, 2), (2023, 3)] ∧
    finance_data_written (fun _ _ q => q != 2) (fun _ _ _ => true) 2023 2 = false ∧
    finance_data_written (fun _ _ q => q != 2) (fun _ _ _ => true) 2023 1 = true ∧
    finance_latest_marker (iter_finance_quarters 2023 3 12 (2023, 1))
        (finance_data_written (fun _ _ q => q != 2) (fun _ _ _ => true)) =
      some (2023, 3) ∧
    finance_resume_start
        (finance_latest_marker (iter_finance_quarters 2023 3 12 (2023, 1))
          (finance_data_written (fun _ _ q => q != 2) (fun _ _ _ => true))) 2014 =
      (2023, 4) ∧
    (2023, 2) ∉ iter_finance_quarters 2023 3 12
        (finance_resume_start
          (finance_latest_marker (iter_finance_quarters 2023 3 12 (2023, 1))
            (finance_data_written (fun _ _ q => q != 2) (fun _ _ _ => true))) 2014) := by
  refine ⟨by decide, by decide, by decide, by decide, by decide, by decide⟩

/-- Helper: an `Option` produced by the final start-vs-end guard of
`_resolve_start_date` only carries values no later than the end date. -/
theorem final_guard_le (c e s : Int)
    (h : (if c > e then (none : Option Int) else some c) = some s) : s ≤ e := by
  split at h
  · cases h
  · next hng =>
    rw [Option.some.injEq] at h
    omega

/-- Helper: when `_resolve_start_date` returns a start, that start is never
after the end date (the function returns `None` instead). -/
theorem resolve_start_date_le (last_date : Option Int) (full_update : Bool)
    (lookback_years : Option Int) (end_dt : Int) (min_start_date : Int)
    (resume_from_existing : Bool) (lookback_days : Option Int) (s : Int)
    (h : resolve_start_date last_date full_update lookback_years end_dt
      min_start_date resume_from_existing lookback_days = some s) :
    s ≤ end_dt := by
  rw [resolve_start_date] at h
  exact final_guard_le _ _ _ h

/-- C1: inside `sync_k_data`'s per-symbol step, with a resolvable start and
the fetch delegated to `query_history_k_data_plus` (whose successful result
is date-sorted by construction): an empty vendor response produces only the
source call — no bar write and no watermark update — while a non-empty
response whose bulk upsert succeeds writes the bars and then sets the
symbol's per-frequency watermark field to the date of the last row of the
date-sorted response, which is the maximum date among the rows persisted
(not the requested end date). -/
theorem sync_symbol_watermark_advance
    (meta : FreqMeta) (freq : String) (end_dt : Int)
    (latestInCol : String → Option Int) (fetch : String → Int → Int → List Row)
    (writeOk : String → Bool) (full_update : Bool) (lookback_years : Option Int)
    (resume hasBackend : Bool) (stock : StockDoc)
    (respAt : Nat → VendorResp) (rows : List Row) (calls : Nat) (startD : Int)
    (hres : resolve_start_date
        (match stock.wm meta.field with
          | some d => some d
          | none => latestInCol stock.code)
        full_update
        (if lookback_years.isSome && freq != "5" then lookback_years
          else meta.default_years)
        end_dt meta.min_start resume meta.lookback_days = some startD)
    (hq : query_history freq respAt = Except.ok (rows, calls))
    (hfetch : fetch stock.code startD end_dt = rows) :
    (rows = [] →
      sync_symbol meta freq end_dt latestInCol fetch writeOk full_update
          lookback_years false resume hasBackend stock =
        [Effect.sourceQuery stock.code startD end_dt freq]) ∧
    (∀ last : Row, rows.getLast? = some last → writeOk stock.code = true →
      sync_symbol meta freq end_dt latestInCol fetch writeOk full_update
          lookback_years false resume hasBackend stock =
        [Effect.sourceQuery stock.code startD end_dt freq,
          Effect.barBulkWrite freq (rows.map upsert_key),
          Effect.watermarkUpdate stock.code meta.field last.date] ++
        (if hasBackend then [Effect.pushKline freq rows.length] else []) ∧
      (∀ r ∈ rows, r.date ≤ last.date)) := by
  have hle : startD ≤ end_dt := resolve_start_date_le _ _ _ _ _ _ _ _ hres
  have hsorted : rows.Sorted (fun a b : Row => a.date ≤ b.date) :=
    query_history_ok_sorted freq respAt rows calls hq
  constructor
  · intro hrows
    simp only [sync_symbol, hres]
    rw [if_neg (by omega), if_neg (by simp), hfetch, hrows]
    rfl
  · intro last hlast hwok
    have hne : rows ≠ [] := by
      intro hcon
      rw [hcon] at hlast
      cases hlast
    constructor
    · simp only [sync_symbol, hres]
      rw [if_neg (by omega), if_neg (by simp), hfetch]
      rw [if_neg (by simpa using hne)]
      simp only [bulk_upsert_kline, hlast, hwok, if_true]
    · exact fun r hr => sorted_getLast_max hsorted hlast r hr

/-- Witness for C1: a daily sync step for one symbol whose vendor answers
with two rows (dates 60 and 61, day numbers) writes both bars and advances
the watermark field to 61 — the last date of the sorted response. -/
theorem sync_symbol_watermark_advance_witness :
    resolve_start_date
        (match (StockDoc.mk "sh.600000" (fun _ => some 50)).wm "last_daily_date" with
          | some d => some d
          | none => (fun _ => (none : Option Int)) "sh.600000")
        false
        (if (none : Option Int).isSome && "d" != "5" then (none : Option Int)
          else (none : Option Int))
        100 0 false none = some 51 ∧
    query_history "d"
        (fun _ => ⟨"0", (expected_fields "d").getD [],
          [⟨"sh.600000", 60, none⟩, ⟨"sh.600000", 61, none⟩]⟩) =
      Except.ok ([⟨"sh.600000", 60, none⟩, ⟨"sh.600000", 61, none⟩], 1) ∧
    ([(⟨"sh.600000", 60, none⟩ : Row), ⟨"sh.600000", 61, none⟩].getLast? =
      some ⟨"sh.600000", 61, none⟩) ∧
    (sync_symbol ⟨"last_daily_date", 0, none, none⟩ "d" 100 (fun _ => none)
        (fun _ _ _ => [⟨"sh.600000", 60, none⟩, ⟨"sh.600000", 61, none⟩])
        (fun _ => true) false none false false false
        (StockDoc.mk "sh.600000" (fun _ => some 50)) =
      [Effect.sourceQuery "sh.600000" 51 100 "d",
        Effect.barBulkWrite "d"
          [("sh.600000", 60, none), ("sh.600000", 61, none)],
        Effect.watermarkUpdate "sh.600000" "last_daily_date" 61] ++
      (if false then [Effect.pushKline "d" 2] else []) ∧
      (∀ r ∈ [(⟨"sh.600000", 60, none⟩ : Row), ⟨"sh.600000", 61, none⟩],
        r.date ≤ (61 : Int))) :=
  ⟨by decide, rfl, rfl,
    (sync_symbol_watermark_advance ⟨"last_daily_date", 0, none, none⟩ "d" 100
      (fun _ => none)
      (fun _ _ _ => [⟨"sh.600000", 60, none⟩, ⟨"sh.600000", 61, none⟩])
      (fun _ => true) false none false false
      (StockDoc.mk "sh.600000" (fun _ => some 50))
      (fun _ => ⟨"0", (expected_fields "d").getD [],
        [⟨"sh.600000", 60, none⟩, ⟨"sh.600000", 61, none⟩]⟩)
      [⟨"sh.600000", 60, none⟩, ⟨"sh.600000", 61, none⟩] 1 51
      (by decide) rfl rfl).2 ⟨"sh.600000", 61, none⟩ rfl rfl⟩

/-- Helper: with `dry_run = True` the per-symbol body either skips the
symbol entirely or emits exactly one dry-run log line. -/
theorem sync_symbol_dry_run_cases (meta : FreqMeta) (freq : String) (end_dt : Int)
    (latestInCol : String → Option Int) (fetch : String → Int → Int → List Row)
    (writeOk : String → Bool) (full_update : Bool) (lookback_years : Option Int)
    (resume hasBackend : Bool) (stock : StockDoc) :
    sync_symbol meta freq end_dt latestInCol fetch writeOk full_update
        lookback_years true resume hasBackend stock = [] ∨
    ∃ startD : Int,
      sync_symbol meta freq end_dt latestInCol fetch writeOk full_update
          lookback_years true resume hasBackend stock =
        [Effect.dryRunLog stock.code freq startD end_dt] := by
  simp only [sync_symbol]
  cases hres : resolve_start_date
      (match stock.wm meta.field with
        | some d => some d
        | none => latestInCol stock.code)
      full_update
      (if lookback_years.isSome && freq != "5" then lookback_years
        else meta.default_years)
      end_dt meta.min_start resume meta.lookback_days with
  | none => exact Or.inl rfl
  | some startD =>
    by_cases hgt : startD > end_dt
    · exact Or.inl (by simp [hgt])
    · exact Or.inr ⟨startD, by simp [hgt]⟩

/-- C9 (amended): every effect of a `sync_k_data` run with `dry_run = True`
is either a dry-run log line or a placeholder `stock_basic` upsert from
`_compose_target_stock_list`: the per-symbol loop never calls the history
source, never consumes call budget, writes no bars, updates no watermark
and pushes nothing — but composing the target list does insert placeholder
`stock_basic` documents for configured index codes that are missing, even
in dry-run mode. -/
theorem sync_k_data_dry_run_effects (metas : String → Option FreqMeta)
    (freq_list : List String) (basic : List StockDoc) (index_codes : List String)
    (end_dt : Int) (latestInCol : String → Option Int)
    (fetch : String → Int → Int → String → List Row) (writeOk : String → Bool)
    (full_update : Bool) (lookback_years : Option Int) (resume hasBackend : Bool) :
    ∀ e ∈ sync_k_data metas freq_list basic index_codes end_dt latestInCol
        fetch writeOk full_update lookback_years true resume hasBackend,
      (∃ c, e = Effect.basicPlaceholderUpsert c) ∨
      (∃ c f startD, e = Effect.dryRunLog c f startD end_dt) := by
  intro e he
  have hcomp : ∀ x ∈ (compose_target_stock_list basic index_codes).2,
      ∃ c, x = Effect.basicPlaceholderUpsert c := by
    intro x hx
    simp only [compose_target_stock_list, List.mem_map] at hx
    obtain ⟨c, _, hc⟩ := hx
    exact ⟨c, hc.symm⟩
  have hfreqs : ∀ (stocks : List StockDoc) (fl : List String),
      ∀ x ∈ sync_freqs metas end_dt latestInCol fetch writeOk full_update
          lookback_years true resume hasBackend stocks fl,
        ∃ c f startD, x = Effect.dryRunLog c f startD end_dt := by
    intro stocks fl
    induction fl with
    | nil => intro x hx; cases hx
    | cons f rest ih =>
      intro x hx
      unfold sync_freqs at hx
      cases hmeta : metas f with
      | none => rw [hmeta] at hx; cases hx
      | some meta =>
        rw [hmeta] at hx
        rcases List.mem_append.mp hx with hx1 | hx2
        · obtain ⟨l, hl, hxl⟩ := List.mem_flatten.mp hx1
          obtain ⟨stock, _, hst⟩ := List.mem_map.mp hl
          rcases sync_symbol_dry_run_cases meta f end_dt latestInCol
              (fun c s e2 => fetch c s e2 f) writeOk full_update lookback_years
              resume hasBackend stock with hnil | ⟨startD, hlog⟩
          · rw [← hst, hnil] at hxl
            cases hxl
          · rw [← hst, hlog] at hxl
            rcases List.mem_singleton.mp hxl with rfl
            exact ⟨stock.code, f, startD, rfl⟩
        · exact ih x hx2
  unfold sync_k_data at he
  by_cases hemp : (compose_target_stock_list basic index_codes).1.isEmpty
  · rw [if_pos hemp] at he
    exact Or.inl (hcomp e he)
  · rw [if_neg hemp] at he
    rcases List.mem_append.mp he with h1 | h2
    · exact Or.inl (hcomp e h1)
    · exact Or.inr (hfreqs _ _ e h2)

/-- Witness for the amended C9: in a concrete dry run with one configured
index code missing from `stock_basic`, the dry-run log effect it produces
is covered by the theorem's disjunction. -/
theorem sync_k_data_dry_run_effects_witness :
    Effect.dryRunLog "sh.000300" "d" 0 100 ∈
      sync_k_data
        (fun f => if f = "d" then some ⟨"last_daily_date", 0, none, none⟩ else none)
        ["d"] [] ["sh.000300"] 100 (fun _ => none) (fun _ _ _ _ => [])
        (fun _ => true) false none true false false ∧
    ((∃ c, Effect.dryRunLog "sh.000300" "d" 0 100 = Effect.basicPlaceholderUpsert c) ∨
      (∃ c f startD,
        Effect.dryRunLog "sh.000300" "d" 0 100 = Effect.dryRunLog c f startD 100)) :=
  ⟨by decide,
    sync_k_data_dry_run_effects
      (fun f => if f = "d" then some ⟨"last_daily_date", 0, none, none⟩ else none)
      ["d"] [] ["sh.000300"] 100 (fun _ => none) (fun _ _ _ _ => [])
      (fun _ => true) false none false false
      (Effect.dryRunLog "sh.000300" "d" 0 100) (by decide)⟩

/-- C9 counterexample: a `sync_k_data` dry run with a configured index code
absent from `stock_basic` still mutates stored state: the effect trace of
the run contains a placeholder `stock_basic` document upsert (an
insertion), contradicting the claim that a dry run mutates no stored
state. -/
theorem sync_k_data_dry_run_mutates_cex :
    sync_k_data
        (fun f => if f = "d" then some ⟨"last_daily_date", 0, none, none⟩ else none)
        ["d"] [] ["sh.000300"] 100 (fun _ => none) (fun _ _ _ _ => [])
        (fun _ => true) false none true false false =
      [Effect.basicPlaceholderUpsert "sh.000300",
        Effect.dryRunLog "sh.000300" "d" 0 100] ∧
    Effect.basicPlaceholderUpsert "sh.000300" ∈
      sync_k_data
        (fun f => if f = "d" then some ⟨"last_daily_date", 0, none, none⟩ else none)
        ["d"] [] ["sh.000300"] 100 (fun _ => none) (fun _ _ _ _ => [])
        (fun _ => true) false none true false false := by
  exact ⟨by decide, by decide⟩

end AStock
